import Mathlib

/-!
Verification of the UMID biometric enrollment and matching engine
(`biometric_auth.py`, orphan cleanup in `admin.py`) against its
natural-language specification.

The Python code is shallowly embedded: the CSV-backed template store is a
list of rows, pandas DataFrame column access is modelled with an explicit
header, Python exceptions are modelled with `Except`, `random.randint` is
modelled by an injected stream of draws, and the SHA-256 digest is an
injected function parameter (only its output string is ever compared).
The two floating-point comparisons the embedded operations depend on are
modelled by integer division and cross-multiplication, with bridging
lemmas (`match_score_eq_floor`, `similarity_threshold_iff`) relating them
to the rational formulas: on this system's realizable inputs (64-character
SHA-256 hex digests for `_calculate_match_score`, the 0.7 enrollment
threshold for `_verify_fingerprint_match`) the IEEE-double computation
coincides with the exact one. `_calculate_quality_score`, whose
`int(min(100, (count / length) * 100))` can genuinely diverge from the
exact fraction under double rounding (29 non-zero entries of 100 yield 28
in Python, 29 exactly), is deliberately not embedded: settling claims
about it would require bit-exact floating-point semantics.
-/

namespace UMID

/-- One captured fingerprint sample: the `fingerprint_data` dict built by
`capture_fingerprint_data` / `_demo_capture_fingerprint` (the timestamp
field is never read by any operation and is omitted). -/
structure FingerprintData where
  characteristics : List Int
  hash : String
  quality_score : Nat
deriving Repr, DecidableEq

/-- Outcome of one capture call, the `(success, data, message)` triple. -/
inductive CaptureResult where
  | ok (data : FingerprintData) (msg : String)
  | fail (msg : String)
deriving Repr, DecidableEq

/-- One row of `biometric_data.csv` as written by `register_fingerprint`
(`template_data` is stored as `json.dumps(characteristics)`; the JSON
round-trip is the identity on the integer list, so the list is kept). -/
structure BiometricRow where
  user_id : String
  fingerprint_hash : String
  template_data : List Int
  registration_date : String
  last_used : String
  quality_score : Nat
  scanner_position : Option String
  usage_count : Nat
deriving Repr, DecidableEq

/-- `BiometricAuth._calculate_match_score`: position-wise character
equality between the two hash strings over the shorter length, times 100,
truncated; equal hashes short-circuit to 100, and the `ZeroDivisionError`
on two empty unequal hashes is caught by the handler returning 0. -/
def calculate_match_score (hash1 hash2 : String) : Nat :=
  if hash1 = hash2 then 100
  else
    let min_len := min hash1.length hash2.length
    if min_len = 0 then 0
    else
      let match_count := ((hash1.toList.take min_len).zip (hash2.toList.take min_len)).countP
        fun p => p.1 = p.2
      match_count * 100 / min_len

/-- `BiometricAuth._verify_fingerprint_match` with the default
`threshold=0.7`: in demo mode both qualities must exceed 70; otherwise the
characteristic vectors must have equal length and the fraction of
positions whose values differ by at most 10 must reach 0.7. A
`ZeroDivisionError` on empty vectors is caught and returns `false`. -/
def verify_fingerprint_match (demo_mode : Bool) (data1 data2 : FingerprintData) : Bool :=
  if demo_mode then
    decide (data1.quality_score > 70 ∧ data2.quality_score > 70)
  else
    let chars1 := data1.characteristics
    let chars2 := data2.characteristics
    if chars1.length ≠ chars2.length then false
    else if chars1.length = 0 then false
    else
      let match_count := (chars1.zip chars2).countP fun p => |p.1 - p.2| ≤ 10
      decide (7 * chars1.length ≤ 10 * match_count)

/-- The running `best_match_score` of the search loop: the loop starts
with `best_match = None` and `best_match_score = 0`. -/
def best_score : Option (BiometricRow × Nat) → Nat
  | none => 0
  | some (_, s) => s

/-- The search loop of `BiometricAuth.authenticate_fingerprint` over the
stored rows: an exact hash equality breaks out with score 100, otherwise a
partial score strictly above the best so far and at least 80 replaces the
running best candidate. -/
def search_best_match (auth_hash : String) :
    List BiometricRow → Option (BiometricRow × Nat) → Option (BiometricRow × Nat)
  | [], best => best
  | row :: rest, best =>
    if auth_hash = row.fingerprint_hash then some (row, 100)
    else
      let match_score := calculate_match_score auth_hash row.fingerprint_hash
      if match_score > best_score best ∧ match_score ≥ 80 then
        search_best_match auth_hash rest (some (row, match_score))
      else
        search_best_match auth_hash rest best

/-- The tail of `authenticate_fingerprint` once an `auth_hash` and
`quality_score` are in hand: run the search; on a match set `last_used`
and write the matched row's incremented `usage_count` onto every row with
the matched `user_id`, persist, and report success; otherwise leave the
store untouched. Returns `((user_id?, message), store after the call)`. -/
def authenticate_with_hash (store : List BiometricRow) (auth_hash : String)
    (quality_score : Nat) (now : String) : (Option String × String) × List BiometricRow :=
  match search_best_match auth_hash store none with
  | some (best_match, best_match_score) =>
    let uid := best_match.user_id
    let new_count := best_match.usage_count + 1
    let store2 := store.map fun r =>
      if r.user_id = uid then { r with last_used := now, usage_count := new_count } else r
    ((some uid, "Authentication successful! Welcome " ++ uid ++ " (Match: " ++
      toString best_match_score ++ "%, Quality: " ++ toString quality_score ++ "%)"), store2)
  | none =>
    ((none, "Fingerprint not recognized. Access denied. (Quality: " ++
      toString quality_score ++ "%)"), store)

/-- `BiometricAuth.authenticate_fingerprint`: empty store short-circuits;
a provided `captured_hash` is used with quality 85, otherwise the capture
outcome supplies hash and quality or aborts the attempt. -/
def authenticate_fingerprint (store : List BiometricRow) (captured_hash : Option String)
    (capture : CaptureResult) (now : String) : (Option String × String) × List BiometricRow :=
  if store.isEmpty then
    ((none, "No registered fingerprints found in system"), store)
  else
    match captured_hash with
    | some h => authenticate_with_hash store h 85 now
    | none =>
      match capture with
      | .ok d _ => authenticate_with_hash store d.hash d.quality_score now
      | .fail m => ((none, "Authentication failed: " ++ m), store)

/-- `BiometricAuth.register_fingerprint`: reject a user who already holds
a row, require both captures to succeed and the dual-capture consistency
check to pass, keep the higher-quality sample (ties favour the first), and
append the new row with `last_used = "Never"` and `usage_count = 0`. -/
def register_fingerprint (demo_mode : Bool) (store : List BiometricRow)
    (cap1 cap2 : CaptureResult) (user_id now : String) (scanner_position : Option String) :
    (Bool × String) × List BiometricRow :=
  if store.any fun r => r.user_id = user_id then
    ((false, "Fingerprint already registered for user " ++ user_id ++
      ". Remove existing fingerprint first."), store)
  else
    match cap1 with
    | .fail m => ((false, "First scan failed: " ++ m), store)
    | .ok data1 _ =>
      match cap2 with
      | .fail m => ((false, "Second scan failed: " ++ m), store)
      | .ok data2 _ =>
        if ¬ verify_fingerprint_match demo_mode data1 data2 then
          ((false, "Fingerprints don\x27t match. Please try again with the same finger."), store)
        else
          let final_data := if data1.quality_score ≥ data2.quality_score then data1 else data2
          let new_registration : BiometricRow :=
            { user_id := user_id
              fingerprint_hash := final_data.hash
              template_data := final_data.characteristics
              registration_date := now
              last_used := "Never"
              quality_score := final_data.quality_score
              scanner_position := scanner_position
              usage_count := 0 }
          let mode_text := if demo_mode then "demo mode" else "hardware scanner"
          ((true, "Fingerprint registered successfully for " ++ user_id ++ " using " ++
            mode_text ++ " (Quality: " ++ toString final_data.quality_score ++ "%)"),
            store ++ [new_registration])

/-- `BiometricAuth.remove_fingerprint`: report absence, otherwise keep
exactly the rows of other users. -/
def remove_fingerprint (store : List BiometricRow) (user_id : String) :
    (Bool × String) × List BiometricRow :=
  if store.all fun r => r.user_id ≠ user_id then
    ((false, "No fingerprint found for user " ++ user_id), store)
  else
    ((true, "Fingerprint removed successfully for " ++ user_id),
      store.filter fun r => r.user_id ≠ user_id)

/-- `random.randint(lo, hi)` (both bounds inclusive) driven by one draw
from an injected stream of non-negative integers. -/
def randint (lo hi draw : Nat) : Nat := lo + draw % (hi + 1 - lo)

/-- `BiometricAuth._demo_capture_fingerprint`: 512 synthetic values drawn
from [1, 255], the hash of the characteristics, and a random quality in
[75, 95]; unconditionally returns success. `hashFn` stands for
`sha256(str(...)).hexdigest()` and `rand` for the stream of draws consumed
by the `random` module. -/
def demo_capture_fingerprint (hashFn : List Int → String) (rand : Nat → Nat) : CaptureResult :=
  let demo_characteristics : List Int := (List.range 512).map fun i => (randint 1 255 (rand i) : Int)
  .ok { characteristics := demo_characteristics
        hash := hashFn demo_characteristics
        quality_score := randint 75 95 (rand 512) }
    "Demo fingerprint captured"

/-- The `BiometricAuth` object state the embedded operations read:
`demo_mode` and whether `self.scanner` holds an object — both set by
`init_scanner_connection` during `__init__` and assigned nowhere else —
plus the contents of `biometric_data.csv`. -/
structure BAState where
  demo_mode : Bool
  has_scanner : Bool
  store : List BiometricRow
deriving Repr, DecidableEq

/-- `BiometricAuth.capture_fingerprint_data`: demo mode or a missing
scanner object delegates to the synthetic generator; otherwise the
hardware path outcome `hw` (characteristics, timeout or raised exception)
is returned. -/
def capture_fingerprint_data (s : BAState) (hashFn : List Int → String)
    (rand : Nat → Nat) (hw : CaptureResult) : CaptureResult :=
  if s.demo_mode ∨ ¬ s.has_scanner then demo_capture_fingerprint hashFn rand else hw

/-- Method-level view of `register_fingerprint`: the method body reads
`self.demo_mode` and `self.scanner` and writes only the CSV contents. -/
def register_fingerprint_method (s : BAState) (cap1 cap2 : CaptureResult)
    (user_id now : String) (pos : Option String) : BAState × (Bool × String) :=
  let r := register_fingerprint s.demo_mode s.store cap1 cap2 user_id now pos
  ({ s with store := r.2 }, r.1)

/-- Method-level view of `authenticate_fingerprint`. -/
def authenticate_fingerprint_method (s : BAState) (captured_hash : Option String)
    (capture : CaptureResult) (now : String) : BAState × (Option String × String) :=
  let r := authenticate_fingerprint s.store captured_hash capture now
  ({ s with store := r.2 }, r.1)

/-- Method-level view of `remove_fingerprint`. -/
def remove_fingerprint_method (s : BAState) (user_id : String) : BAState × (Bool × String) :=
  let r := remove_fingerprint s.store user_id
  ({ s with store := r.2 }, r.1)

/-- `register_fingerprint` with its outermost `try/except Exception`
visible: `storeE` is the outcome of `pd.read_csv` (`error` models the
exception raised by a missing or corrupt file) and any raised error is
converted into the failure pair of line 244. -/
def register_fingerprint_total (demo_mode : Bool) (storeE : Except String (List BiometricRow))
    (cap1 cap2 : CaptureResult) (user_id now : String) (pos : Option String) :
    (Bool × String) × Except String (List BiometricRow) :=
  match storeE with
  | .error e => ((false, "Registration failed: " ++ e), storeE)
  | .ok store =>
    let r := register_fingerprint demo_mode store cap1 cap2 user_id now pos
    (r.1, .ok r.2)

/-- `authenticate_fingerprint` with its outermost `try/except Exception`
visible. -/
def authenticate_fingerprint_total (storeE : Except String (List BiometricRow))
    (captured_hash : Option String) (capture : CaptureResult) (now : String) :
    (Option String × String) × Except String (List BiometricRow) :=
  match storeE with
  | .error e => ((none, "Authentication error: " ++ e), storeE)
  | .ok store =>
    let r := authenticate_fingerprint store captured_hash capture now
    (r.1, .ok r.2)

/-- `remove_fingerprint` with its outermost `try/except Exception`
visible. -/
def remove_fingerprint_total (storeE : Except String (List BiometricRow)) (user_id : String) :
    (Bool × String) × Except String (List BiometricRow) :=
  match storeE with
  | .error e => ((false, "Failed to remove fingerprint: " ++ e), storeE)
  | .ok store =>
    let r := remove_fingerprint store user_id
    (r.1, .ok r.2)

/-- A pandas DataFrame as read back from a CSV file: the header naming the
columns, and the data rows as strings. -/
structure PyDataFrame where
  header : List String
  rows : List (List String)
deriving Repr, DecidableEq

/-- The header of `biometric_data.csv` as created by
`init_biometric_storage` and preserved by every writer of the file
(`register_fingerprint`, `remove_fingerprint`, `authenticate_fingerprint`,
`setup_scanner_demo_data`). -/
def biometricHeader : List String :=
  ["user_id", "fingerprint_hash", "template_data", "registration_date",
   "last_used", "quality_score", "scanner_position", "usage_count"]

/-- The Clean Orphaned Biometric Data handler in `show_admin_page`
(`admin.py` lines 807-839): read `biometric_data.csv` (`none` models
`FileNotFoundError`, which the handler catches and reports), select column
`biometric_data["ID"]` — raising `KeyError` when that column is absent,
an exception the handler does **not** catch, modelled as `.error` — then
drop the rows whose value is outside `valid_users` and rewrite the file
only when at least one orphan was found. Returns the file content after
the click together with the number of rows removed. -/
def clean_orphaned_biometric (valid_users : List String) (file : Option PyDataFrame) :
    Except String (Option PyDataFrame × Nat) :=
  match file with
  | none => .ok (none, 0)
  | some df =>
    match df.header.findIdx? fun s => s = "ID" with
    | none => .error "KeyError: ID"
    | some i =>
      let keep := fun (r : List String) => valid_users.contains (r.getD i "")
      let orphaned := df.rows.filter fun r => ¬ keep r
      if orphaned.isEmpty then .ok (some df, 0)
      else .ok (some { df with rows := df.rows.filter keep }, orphaned.length)

/-- The proximity similarity of spec §4.3, as the spec words it: count of
corresponding values within the tolerance (10), divided by the vector
length, as a percentage (0 when the lengths differ or the vectors are
empty). Written from the spec, for comparison with the code only. -/
def proximity_score_spec (sample template : List Int) : Nat :=
  if sample.length = template.length ∧ sample.length ≠ 0 then
    ((sample.zip template).countP fun p => |p.1 - p.2| ≤ 10) * 100 / sample.length
  else 0

/-- The two-phase matcher exactly as claim C1 and spec §4.3 word it:
(a) exact-signature fast path; (b) otherwise score every template's **raw
data** against the sample by the proximity comparison, keep the
highest-scoring candidate (first among ties), and accept only at
score ≥ 80. Written from the spec, for comparison with the code only. -/
def match_fingerprint_spec (sample : FingerprintData) (templates : List BiometricRow) :
    Option (String × Nat) :=
  match templates.find? fun t => t.fingerprint_hash = sample.hash with
  | some t => some (t.user_id, 100)
  | none =>
    let best := templates.foldl (fun best t =>
      let sc := proximity_score_spec sample.characteristics t.template_data
      match best with
      | none => some (t.user_id, sc)
      | some q => if sc > q.2 then some (t.user_id, sc) else some q) none
    match best with
    | some q => if q.2 ≥ 80 then some q else none
    | none => none

example : calculate_match_score "ab" "ab" = 100 := by decide
example : calculate_match_score "abcd" "abxx" = 50 := by decide
example : verify_fingerprint_match true ⟨[], "h", 82⟩ ⟨[], "g", 91⟩ = true := by decide
example : verify_fingerprint_match false ⟨[0, 0, 100], "h", 90⟩ ⟨[5, 9, 50], "g", 90⟩ = false := by
  decide
example : verify_fingerprint_match false ⟨[0, 0, 100], "h", 90⟩ ⟨[5, 9, 105], "g", 90⟩ = true := by
  decide

/-- A concrete stored row for user `u1`, used as test fixture. -/
def oldRow : BiometricRow :=
  { user_id := "u1"
    fingerprint_hash := "oldhash"
    template_data := []
    registration_date := "2024-01-01"
    last_used := "Never"
    quality_score := 80
    scanner_position := none
    usage_count := 0 }

/-- A stored row whose raw template data is numerically close to the
counterexample sample but whose hash shares no character with it. -/
def proximityRow : BiometricRow :=
  { user_id := "u1"
    fingerprint_hash := "bbbb"
    template_data := [6, 6, 6, 6]
    registration_date := "2024-01-01"
    last_used := "Never"
    quality_score := 90
    scanner_position := none
    usage_count := 0 }

/-! Helper lemmas (shared, not tied to any single claim). -/

theorem append_ne_empty {s t : String} (hs : s ≠ "") : s ++ t ≠ "" := by
  intro h
  apply hs
  have hl := congrArg String.length h
  rw [String.length_append] at hl
  have h0 : s.length = 0 := by simpa using Nat.eq_zero_of_add_eq_zero_right hl
  cases s with
  | mk data =>
    cases data with
    | nil => rfl
    | cons a l => simp [String.length, List.length] at h0

/-- Bridging: the integer division used in the embedding equals the
`int(...)` truncation of the rational `(m / n) * 100` the source computes
in floating point. -/
theorem match_score_eq_floor (m n : Nat) :
    m * 100 / n = Nat.floor (((m : ℚ) / (n : ℚ)) * 100) := by
  rw [div_mul_eq_mul_div]
  rw [show ((m : ℚ) * 100) = (((m * 100 : Nat) : ℚ)) by push_cast; ring]
  rw [Nat.floor_div_eq_div]

/-- Bridging: the cross-multiplied threshold test in the embedding equals
the `similarity >= 0.7` comparison the source computes in floating
point. -/
theorem similarity_threshold_iff (m n : Nat) (hn : n ≠ 0) :
    (7 * n ≤ 10 * m) ↔ ((7 : ℚ) / 10 ≤ (m : ℚ) / (n : ℚ)) := by
  have hn0 : (0 : ℚ) < (n : ℚ) := by exact_mod_cast Nat.pos_of_ne_zero hn
  rw [div_le_div_iff₀ (by norm_num) hn0, mul_comm ((m : ℚ)) 10]
  exact_mod_cast Iff.rfl

/-- C6: authentication while the template store holds no rows returns
`None` with the "no registered fingerprints" reason, regardless of the
capture outcome, leaves the store empty, and — the embedding being a total
function on all inputs — never raises or returns an error. -/
theorem authenticate_empty_store (captured_hash : Option String) (capture : CaptureResult)
    (now : String) :
    authenticate_fingerprint [] captured_hash capture now =
      ((none, "No registered fingerprints found in system"), []) := rfl

/-- C7 (code bug): every writer of `biometric_data.csv` produces the
`user_id` header, but the cleanup handler selects column `"ID"`; on any
existing data file — here with exactly one orphaned row — the click
raises an uncaught `KeyError` instead of removing the orphan and keeping
the valid rows. -/
theorem cleanup_orphans_key_error :
    clean_orphaned_biometric ["u1"]
      (some { header := biometricHeader,
              rows := [["ghost", "h", "[]", "2024-01-01", "Never", "90", "", "0"]] }) =
      Except.error "KeyError: ID" := by rfl

/-- C10: the public operations are total at the interface: for every
store-read outcome (including a raised read exception), every capture
outcome and all inputs, `register_fingerprint`, `authenticate_fingerprint`
and `remove_fingerprint` return an ordinary `(flag, reason)` or
`(identity?, reason)` pair whose reason string is non-empty — no internal
failure propagates as an exception. -/
theorem public_interface_total (demo_mode : Bool) (storeE : Except String (List BiometricRow))
    (cap1 cap2 capture : CaptureResult) (captured_hash : Option String)
    (user_id now : String) (pos : Option String) :
    (register_fingerprint_total demo_mode storeE cap1 cap2 user_id now pos).1.2 ≠ "" ∧
    (authenticate_fingerprint_total storeE captured_hash capture now).1.2 ≠ "" ∧
    (remove_fingerprint_total storeE user_id).1.2 ≠ "" := by
  refine ⟨?_, ?_, ?_⟩
  · cases storeE with
    | error e => apply append_ne_empty; decide
    | ok store =>
      simp only [register_fingerprint_total, register_fingerprint]
      repeat' split
      all_goals dsimp only
      all_goals repeat (first | decide | apply append_ne_empty)
  · cases storeE with
    | error e => apply append_ne_empty; decide
    | ok store =>
      simp only [authenticate_fingerprint_total, authenticate_fingerprint,
        authenticate_with_hash]
      repeat' split
      all_goals dsimp only
      all_goals repeat (first | decide | apply append_ne_empty)
  · cases storeE with
    | error e => apply append_ne_empty; decide
    | ok store =>
      simp only [remove_fingerprint_total, remove_fingerprint]
      repeat' split
      all_goals dsimp only
      all_goals repeat (first | decide | apply append_ne_empty)

/-- C3: the dual-capture consistency check judges two samples the same
finger exactly as claimed — in demo mode it accepts precisely when both
quality scores exceed 70, and with real captures it requires proximity
similarity (fraction of positions within tolerance 10) of at least 0.7 —
and when the check fails on two successful captures of a fresh user,
`register_fingerprint` aborts with the "Fingerprints don't match" error
and leaves the template store unchanged. -/
theorem dual_capture_consistency (demo_mode : Bool) (d1 d2 : FingerprintData)
    (store : List BiometricRow) (m1 m2 user_id now : String) (pos : Option String)
    (hnew : store.any (fun r => r.user_id = user_id) = false)
    (hfail : verify_fingerprint_match demo_mode d1 d2 = false) :
    register_fingerprint demo_mode store (.ok d1 m1) (.ok d2 m2) user_id now pos =
      ((false, "Fingerprints don\x27t match. Please try again with the same finger."), store) ∧
    (∀ e1 e2 : FingerprintData,
      (verify_fingerprint_match true e1 e2 = true ↔
        (e1.quality_score > 70 ∧ e2.quality_score > 70)) ∧
      (verify_fingerprint_match false e1 e2 = true ↔
        (e1.characteristics.length = e2.characteristics.length ∧
         e1.characteristics.length ≠ 0 ∧
         (7 : ℚ) / 10 ≤
           ((((e1.characteristics.zip e2.characteristics).countP
              fun p => |p.1 - p.2| ≤ 10) : Nat) : ℚ) / (e1.characteristics.length : ℚ)))) := by
  constructor
  · simp only [register_fingerprint, hnew, Bool.false_eq_true, if_false, hfail]
    simp
  · intro e1 e2
    constructor
    · simp [verify_fingerprint_match]
    · simp only [verify_fingerprint_match]
      by_cases hlen : e1.characteristics.length = e2.characteristics.length
      · by_cases h0 : e1.characteristics.length = 0
        · simp [hlen, h0, h0 ▸ hlen.symm]
        · rw [← similarity_threshold_iff _ _ h0]
          simp [hlen, h0]
      · simp [hlen]

/-- C3 witness: in demo mode, a first sample of quality 60 fails the
consistency check and a fresh user's enrollment aborts with the mismatch
error, the store staying empty. -/
theorem dual_capture_consistency_witness :
    (List.any [] (fun r : BiometricRow => r.user_id = "u1") = false) ∧
    verify_fingerprint_match true ⟨[1], "ha", 60⟩ ⟨[2], "hb", 90⟩ = false ∧
    register_fingerprint true [] (.ok ⟨[1], "ha", 60⟩ "ok") (.ok ⟨[2], "hb", 90⟩ "ok")
        "u1" "t" none =
      ((false, "Fingerprints don\x27t match. Please try again with the same finger."), []) :=
  ⟨by decide, by decide,
    (dual_capture_consistency true ⟨[1], "ha", 60⟩ ⟨[2], "hb", 90⟩ [] "ok" "ok" "u1" "t" none
      (by decide) (by decide)).1⟩

/-- C4 (as amended): invoking enrollment for a user who already holds a
template is rejected with the "already registered" error telling the user
to remove the existing fingerprint first; the store is returned unchanged,
so no second row is ever appended and the user's single prior row
remains. -/
theorem duplicate_enrollment_rejected (demo_mode : Bool) (store : List BiometricRow)
    (cap1 cap2 : CaptureResult) (user_id now : String) (pos : Option String)
    (hdup : store.any (fun r => r.user_id = user_id) = true) :
    register_fingerprint demo_mode store cap1 cap2 user_id now pos =
      ((false, "Fingerprint already registered for user " ++ user_id ++
        ". Remove existing fingerprint first."), store) := by
  simp [register_fingerprint, hdup]

/-- C4 witness: a store holding one row for `u1` rejects a second
enrollment for `u1` and is returned unchanged. -/
theorem duplicate_enrollment_rejected_witness :
    (List.any [(oldRow : BiometricRow)]
      (fun r => r.user_id = "u1") = true) ∧
    register_fingerprint true
        [oldRow]
        (.ok ⟨[1, 2], "newhash", 91⟩ "ok") (.ok ⟨[1, 2], "newhash", 90⟩ "ok") "u1" "t" none =
      ((false, "Fingerprint already registered for user u1. Remove existing fingerprint first."),
        [oldRow]) :=
  ⟨by decide,
    duplicate_enrollment_rejected true
      [oldRow]
      (.ok ⟨[1, 2], "newhash", 91⟩ "ok") (.ok ⟨[1, 2], "newhash", 90⟩ "ok") "u1" "t" none
      (by decide)⟩

/-- C4 counterexample: re-enrollment does **not** proceed as an overwrite.
With one stored row for `u1` (hash `"oldhash"`) and a second enrollment
capturing fresh samples (hash `"newhash"`, quality 91, which would pass
the demo-mode consistency check), `register_fingerprint` returns an error
(`False`) rather than a warning with success, and the surviving row still
carries the old hash and quality — the prior row was not replaced. -/
theorem duplicate_enrollment_overwrite_counterexample :
    (register_fingerprint true
        [oldRow]
        (.ok ⟨[1, 2], "newhash", 91⟩ "ok") (.ok ⟨[1, 2], "newhash", 91⟩ "ok")
        "u1" "t" none).1.1 = false ∧
    (register_fingerprint true
        [oldRow]
        (.ok ⟨[1, 2], "newhash", 91⟩ "ok") (.ok ⟨[1, 2], "newhash", 91⟩ "ok")
        "u1" "t" none).2.map (fun r => (r.fingerprint_hash, r.quality_score)) =
      [("oldhash", 80)] ∧
    verify_fingerprint_match true ⟨[1, 2], "newhash", 91⟩ ⟨[1, 2], "newhash", 91⟩ = true := by
  refine ⟨by decide, by decide, by decide⟩

/-- C5: a successful dual-capture enrollment persists the template built
from whichever of the two samples has the higher quality score (ties
favour the first) — its hash, raw characteristics and quality — with
`last_used` set to the `"Never"` sentinel and `usage_count` 0, appended to
the store. -/
theorem enrollment_keeps_better_sample (demo_mode : Bool) (store : List BiometricRow)
    (d1 d2 : FingerprintData) (m1 m2 user_id now : String) (pos : Option String)
    (hnew : store.any (fun r => r.user_id = user_id) = false)
    (hmatch : verify_fingerprint_match demo_mode d1 d2 = true) :
    register_fingerprint demo_mode store (.ok d1 m1) (.ok d2 m2) user_id now pos =
      ((true, "Fingerprint registered successfully for " ++ user_id ++ " using " ++
        (if demo_mode then "demo mode" else "hardware scanner") ++ " (Quality: " ++
        toString (if d1.quality_score ≥ d2.quality_score then d1 else d2).quality_score ++
        "%)"),
       store ++
        [{ user_id := user_id
           fingerprint_hash := (if d1.quality_score ≥ d2.quality_score then d1 else d2).hash
           template_data :=
             (if d1.quality_score ≥ d2.quality_score then d1 else d2).characteristics
           registration_date := now
           last_used := "Never"
           quality_score := (if d1.quality_score ≥ d2.quality_score then d1 else d2).quality_score
           scanner_position := pos
           usage_count := 0 }]) := by
  simp only [register_fingerprint, hnew, Bool.false_eq_true, if_false, hmatch]
  simp [apply_ite]

/-- C5 witness: enrolling `u1` in demo mode with samples of quality 82 and
91 that pass the consistency check stores exactly one template whose
quality score is 91 (and whose hash and raw data come from the
quality-91 sample). -/
theorem enrollment_keeps_better_sample_witness :
    (List.any [] (fun r : BiometricRow => r.user_id = "u1") = false) ∧
    verify_fingerprint_match true ⟨[1], "h82", 82⟩ ⟨[2], "h91", 91⟩ = true ∧
    (register_fingerprint true [] (.ok ⟨[1], "h82", 82⟩ "ok") (.ok ⟨[2], "h91", 91⟩ "ok")
        "u1" "t" none).2.map
      (fun r => (r.fingerprint_hash, r.quality_score, r.last_used, r.usage_count)) =
      [("h91", 91, "Never", 0)] := by
  refine ⟨by decide, by decide, ?_⟩
  rw [enrollment_keeps_better_sample true [] ⟨[1], "h82", 82⟩ ⟨[2], "h91", 91⟩ "ok" "ok"
    "u1" "t" none (by decide) (by decide)]
  decide

theorem search_best_match_mem (ah : String) :
    ∀ (l : List BiometricRow) (acc : Option (BiometricRow × Nat)) (p : BiometricRow × Nat),
      search_best_match ah l acc = some p → some p = acc ∨ p.1 ∈ l := by
  intro l
  induction l with
  | nil =>
    intro acc p h
    simp only [search_best_match] at h
    exact Or.inl h.symm
  | cons row rest ih =>
    intro acc p h
    simp only [search_best_match] at h
    split at h
    · obtain rfl := Option.some.inj h
      right
      simp
    · split at h
      · rcases ih _ _ h with heq | hmem
        · obtain rfl := Option.some.inj heq
          right
          simp
        · right
          exact List.mem_cons_of_mem _ hmem
      · rcases ih _ _ h with heq | hmem
        · exact Or.inl heq
        · right
          exact List.mem_cons_of_mem _ hmem

theorem search_best_match_exact (ah : String) :
    ∀ (l : List BiometricRow) (acc : Option (BiometricRow × Nat)) (r : BiometricRow),
      l.find? (fun t => ah = t.fingerprint_hash) = some r →
      search_best_match ah l acc = some (r, 100) := by
  intro l
  induction l with
  | nil =>
    intro acc r h
    simp at h
  | cons row rest ih =>
    intro acc r h
    by_cases hx : ah = row.fingerprint_hash
    · rw [List.find?_cons_of_pos _ (by simpa using hx)] at h
      obtain rfl := Option.some.inj h
      simp [search_best_match, hx]
    · rw [List.find?_cons_of_neg _ (by simpa using hx)] at h
      simp only [search_best_match, if_neg hx]
      split
      · exact ih _ _ h
      · exact ih _ _ h

theorem search_best_match_score_mono (ah : String) :
    ∀ (l : List BiometricRow), (∀ r ∈ l, ¬ ah = r.fingerprint_hash) →
      ∀ acc, best_score acc ≤ best_score (search_best_match ah l acc) := by
  intro l
  induction l with
  | nil =>
    intro _ acc
    simp [search_best_match]
  | cons row rest ih =>
    intro hne acc
    have hrow : ¬ ah = row.fingerprint_hash := hne row (List.mem_cons_self _ _)
    have hrest : ∀ r ∈ rest, ¬ ah = r.fingerprint_hash := fun r hr =>
      hne r (List.mem_cons_of_mem _ hr)
    simp only [search_best_match, if_neg hrow]
    split
    · rename_i hcond
      have h1 : best_score acc ≤ calculate_match_score ah row.fingerprint_hash :=
        le_of_lt hcond.1
      have h2 := ih hrest (some (row, calculate_match_score ah row.fingerprint_hash))
      simp only [best_score] at h2
      exact h1.trans h2
    · exact ih hrest acc

theorem search_best_match_dominates (ah : String) :
    ∀ (l : List BiometricRow), (∀ r ∈ l, ¬ ah = r.fingerprint_hash) →
      ∀ acc, ∀ r ∈ l, 80 ≤ calculate_match_score ah r.fingerprint_hash →
        calculate_match_score ah r.fingerprint_hash ≤
          best_score (search_best_match ah l acc) := by
  intro l
  induction l with
  | nil =>
    intro _ acc r hr
    simp at hr
  | cons row rest ih =>
    intro hne acc r hr h80
    have hrow : ¬ ah = row.fingerprint_hash := hne row (List.mem_cons_self _ _)
    have hrest : ∀ r2 ∈ rest, ¬ ah = r2.fingerprint_hash := fun r2 hr2 =>
      hne r2 (List.mem_cons_of_mem _ hr2)
    simp only [search_best_match, if_neg hrow]
    rcases List.mem_cons.mp hr with rfl | hr2
    · split
      · have h2 := search_best_match_score_mono ah rest hrest
          (some (r, calculate_match_score ah r.fingerprint_hash))
        simp only [best_score] at h2
        exact h2
      · rename_i hcond
        have hle : calculate_match_score ah r.fingerprint_hash ≤ best_score acc := by
          by_contra hlt
          push_neg at hlt
          exact hcond ⟨hlt, h80⟩
        exact hle.trans (search_best_match_score_mono ah rest hrest acc)
    · split
      · exact ih hrest _ r hr2 h80
      · exact ih hrest _ r hr2 h80

theorem search_best_match_shape (ah : String) :
    ∀ (l : List BiometricRow), (∀ r ∈ l, ¬ ah = r.fingerprint_hash) →
      ∀ acc, search_best_match ah l acc = acc ∨
        ∃ r ∈ l, search_best_match ah l acc =
            some (r, calculate_match_score ah r.fingerprint_hash) ∧
          80 ≤ calculate_match_score ah r.fingerprint_hash := by
  intro l
  induction l with
  | nil =>
    intro _ acc
    left
    simp [search_best_match]
  | cons row rest ih =>
    intro hne acc
    have hrow : ¬ ah = row.fingerprint_hash := hne row (List.mem_cons_self _ _)
    have hrest : ∀ r ∈ rest, ¬ ah = r.fingerprint_hash := fun r hr =>
      hne r (List.mem_cons_of_mem _ hr)
    simp only [search_best_match, if_neg hrow]
    split
    · rename_i hcond
      rcases ih hrest (some (row, calculate_match_score ah row.fingerprint_hash)) with
        heq | ⟨r, hr, heq, h80⟩
      · right
        exact ⟨row, List.mem_cons_self _ _, heq, hcond.2⟩
      · right
        exact ⟨r, List.mem_cons_of_mem _ hr, heq, h80⟩
    · rcases ih hrest acc with heq | ⟨r, hr, heq, h80⟩
      · exact Or.inl heq
      · right
        exact ⟨r, List.mem_cons_of_mem _ hr, heq, h80⟩

theorem authenticate_with_hash_frame (store : List BiometricRow) (ah : String) (q : Nat)
    (now : String) (huniq : (store.map BiometricRow.user_id).Nodup) :
    (∀ uid, (authenticate_with_hash store ah q now).1.1 = some uid →
      ∃ r, r ∈ store ∧ r.user_id = uid ∧
        (authenticate_with_hash store ah q now).2 =
          store.map (fun x => if x.user_id = uid
            then { x with last_used := now, usage_count := x.usage_count + 1 } else x)) ∧
    ((authenticate_with_hash store ah q now).1.1 = none →
      (authenticate_with_hash store ah q now).2 = store) := by
  rcases hs : search_best_match ah store none with _ | ⟨row, score⟩
  · constructor
    · intro uid h
      simp [authenticate_with_hash, hs] at h
    · intro _
      simp [authenticate_with_hash, hs]
  · constructor
    · intro uid h
      simp only [authenticate_with_hash, hs] at h ⊢
      obtain rfl := Option.some.inj h
      have hmem : row ∈ store := by
        rcases search_best_match_mem ah store none (row, score) hs with heq | hm
        · simp at heq
        · exact hm
      refine ⟨row, hmem, rfl, ?_⟩
      apply List.map_congr_left
      intro x hx
      by_cases hxu : x.user_id = row.user_id
      · have hxr : x = row := List.inj_on_of_nodup_map huniq hx hmem hxu
        subst hxr
        simp [hxu]
      · simp [hxu]
    · intro h
      simp only [authenticate_with_hash, hs] at h
      exact absurd h (by simp)

/-- C2: with at most one stored row per user (the invariant enrollment
maintains), a successful authentication rewrites the store so that exactly
the matched user's row has `usage_count` incremented by one and
`last_used` set to the current time, every other row unchanged; a failed
authentication (no match, empty store, or capture failure) leaves the
store exactly as it was. -/
theorem authenticate_frame_effect (store : List BiometricRow) (captured_hash : Option String)
    (capture : CaptureResult) (now : String)
    (huniq : (store.map BiometricRow.user_id).Nodup) :
    (∀ uid, (authenticate_fingerprint store captured_hash capture now).1.1 = some uid →
      ∃ r, r ∈ store ∧ r.user_id = uid ∧
        (authenticate_fingerprint store captured_hash capture now).2 =
          store.map (fun x => if x.user_id = uid
            then { x with last_used := now, usage_count := x.usage_count + 1 } else x)) ∧
    ((authenticate_fingerprint store captured_hash capture now).1.1 = none →
      (authenticate_fingerprint store captured_hash capture now).2 = store) := by
  by_cases hemp : store.isEmpty = true
  · constructor
    · intro uid h
      simp [authenticate_fingerprint, hemp] at h
    · intro _
      simp [authenticate_fingerprint, hemp]
  · cases captured_hash with
    | some h' =>
      simp only [authenticate_fingerprint, if_neg hemp]
      exact authenticate_with_hash_frame store h' 85 now huniq
    | none =>
      cases capture with
      | ok d m =>
        simp only [authenticate_fingerprint, if_neg hemp]
        exact authenticate_with_hash_frame store d.hash d.quality_score now huniq
      | fail m =>
        constructor
        · intro uid h
          simp [authenticate_fingerprint, hemp] at h
        · intro _
          simp [authenticate_fingerprint, hemp]

/-- C2 witness: authenticating the stored hash of the single row for `u1`
succeeds and rewrites the store to the same row with `usage_count` 1 and
`last_used` set to the supplied time. -/
theorem authenticate_frame_effect_witness :
    (([oldRow].map BiometricRow.user_id).Nodup) ∧
    ((authenticate_fingerprint [oldRow] (some "oldhash") (.fail "x") "t").1.1 = some "u1") ∧
    (∃ r, r ∈ [oldRow] ∧ r.user_id = "u1" ∧
      (authenticate_fingerprint [oldRow] (some "oldhash") (.fail "x") "t").2 =
        [oldRow].map (fun x => if x.user_id = "u1"
          then { x with last_used := "t", usage_count := x.usage_count + 1 } else x)) :=
  ⟨by decide, by decide,
    (authenticate_frame_effect [oldRow] (some "oldhash") (.fail "x") "t" (by decide)).1
      "u1" (by decide)⟩

/-- C1 (as amended): for a non-empty store the authentication search is
two-phase over **hashes** — the returned identity is exactly the search
result's owner; whenever some stored row carries the sample's exact hash
the search returns the first such row with score 100 (so no fallback match
can return a different identity than an exact-signature hit); and when no
stored hash equals the sample's, the search returns a row of maximal
position-wise hash-character score, accepted only at score ≥ 80, or
nothing when every stored row scores below 80. -/
theorem fingerprint_two_phase_search (store : List BiometricRow) (ah now : String)
    (capture : CaptureResult) (hne : store ≠ []) :
    (authenticate_fingerprint store (some ah) capture now).1.1 =
      (search_best_match ah store none).map (fun p => p.1.user_id) ∧
    (∀ r, store.find? (fun t => ah = t.fingerprint_hash) = some r →
      search_best_match ah store none = some (r, 100)) ∧
    ((∀ r ∈ store, ¬ ah = r.fingerprint_hash) →
      (match search_best_match ah store none with
       | some (r, s) => r ∈ store ∧ s = calculate_match_score ah r.fingerprint_hash ∧
           80 ≤ s ∧ ∀ r2 ∈ store, calculate_match_score ah r2.fingerprint_hash ≤ s
       | none => ∀ r2 ∈ store, calculate_match_score ah r2.fingerprint_hash < 80)) := by
  refine ⟨?_, ?_, ?_⟩
  · have hemp : ¬ (store.isEmpty = true) := by
      cases store with
      | nil => exact absurd rfl hne
      | cons a l => simp
    simp only [authenticate_fingerprint, if_neg hemp, authenticate_with_hash]
    cases hs : search_best_match ah store none with
    | none => simp
    | some p =>
      obtain ⟨r, s⟩ := p
      simp
  · intro r h
    exact search_best_match_exact ah store none r h
  · intro hne2
    cases hs : search_best_match ah store none with
    | none =>
      intro r2 hr2
      by_contra hge
      push_neg at hge
      have hdom := search_best_match_dominates ah store hne2 none r2 hr2 hge
      rw [hs] at hdom
      simp only [best_score] at hdom
      omega
    | some p =>
      obtain ⟨r, s⟩ := p
      rcases search_best_match_shape ah store hne2 none with heq | ⟨r', hr', heq, h80⟩
      · rw [hs] at heq
        exact absurd heq (by simp)
      · rw [hs] at heq
        have hpair := Option.some.inj heq
        injection hpair with h1 h2
        subst h1
        subst h2
        refine ⟨hr', rfl, h80, ?_⟩
        intro r2 hr2
        by_cases h80b : 80 ≤ calculate_match_score ah r2.fingerprint_hash
        · have hdom := search_best_match_dominates ah store hne2 none r2 hr2 h80b
          rw [hs] at hdom
          simpa [best_score] using hdom
        · push_neg at h80b
          omega

/-- C1 witness: with the single stored row for `u1` and the matching hash
presented, the identity authentication returns is the search result's
owner. -/
theorem fingerprint_two_phase_search_witness :
    (([oldRow] : List BiometricRow) ≠ []) ∧
    (authenticate_fingerprint [oldRow] (some "oldhash") (.fail "x") "t").1.1 =
      (search_best_match "oldhash" [oldRow] none).map (fun p => p.1.user_id) :=
  ⟨by decide, (fingerprint_two_phase_search [oldRow] "oldhash" "t" (.fail "x") (by decide)).1⟩

/-- C1 counterexample: the fallback phase does **not** score the sample
against the templates' raw data by numeric proximity. The stored row's raw
data `[6,6,6,6]` is within tolerance 10 of the sample's `[5,5,5,5]` at
every position — the claimed procedure (`match_fingerprint_spec`) accepts
it with score 100 — yet the code compares the hash strings `"aaaa"` and
`"bbbb"`, scores 0, and rejects. -/
theorem fingerprint_two_phase_search_counterexample :
    (authenticate_fingerprint [proximityRow] none
        (.ok ⟨[5, 5, 5, 5], "aaaa", 85⟩ "ok") "t").1.1 = none ∧
    match_fingerprint_spec ⟨[5, 5, 5, 5], "aaaa", 85⟩ [proximityRow] = some ("u1", 100) := by
  exact ⟨by decide, by decide⟩

set_option maxRecDepth 4000 in
/-- C8: while the adapter is in demo mode (`demo_mode` set or no scanner
object), every capture call is satisfied by the synthetic generator and
always succeeds — a 512-entry characteristics vector, its hash, a quality
score within [75, 95] — never a timeout or error; and no public operation
ever changes the mode: the state each of them returns carries the
`demo_mode` fixed at construction. -/
theorem demo_capture_success_and_mode_fixed (s : BAState) (hashFn : List Int → String)
    (rand : Nat → Nat) (hw : CaptureResult)
    (hdemo : s.demo_mode = true ∨ s.has_scanner = false) :
    (∃ d, capture_fingerprint_data s hashFn rand hw =
        CaptureResult.ok d "Demo fingerprint captured" ∧
      d.characteristics.length = 512 ∧ 75 ≤ d.quality_score ∧ d.quality_score ≤ 95 ∧
      d.hash = hashFn d.characteristics) ∧
    (∀ cap1 cap2 uid now pos,
      (register_fingerprint_method s cap1 cap2 uid now pos).1.demo_mode = s.demo_mode) ∧
    (∀ ch cap now,
      (authenticate_fingerprint_method s ch cap now).1.demo_mode = s.demo_mode) ∧
    (∀ uid, (remove_fingerprint_method s uid).1.demo_mode = s.demo_mode) := by
  refine ⟨?_, fun _ _ _ _ _ => rfl, fun _ _ _ => rfl, fun _ => rfl⟩
  have hcond : (s.demo_mode = true ∨ ¬ (s.has_scanner = true)) := by
    rcases hdemo with h | h
    · exact Or.inl h
    · right
      simp [h]
  simp only [capture_fingerprint_data, if_pos hcond, demo_capture_fingerprint]
  refine ⟨_, rfl, ?_, ?_, ?_, rfl⟩
  · simp
  · simp only [randint]
    omega
  · simp only [randint]
    omega

/-- C8 witness: a demo-mode state yields a successful synthetic capture
with the documented shape. -/
theorem demo_capture_success_and_mode_fixed_witness :
    ((⟨true, false, []⟩ : BAState).demo_mode = true ∨
      (⟨true, false, []⟩ : BAState).has_scanner = false) ∧
    (∃ d, capture_fingerprint_data ⟨true, false, []⟩ (fun _ => "h") (fun _ => 0) (.fail "hw") =
        CaptureResult.ok d "Demo fingerprint captured" ∧
      d.characteristics.length = 512 ∧ 75 ≤ d.quality_score ∧ d.quality_score ≤ 95 ∧
      d.hash = (fun _ => "h") d.characteristics) :=
  ⟨Or.inl rfl,
    (demo_capture_success_and_mode_fixed ⟨true, false, []⟩ (fun _ => "h") (fun _ => 0)
      (.fail "hw") (Or.inl rfl)).1⟩

end UMID
